import Mathlib

/-!
# Verification of the STT-Diktat-Agent event-driven state coordinator

A shallow embedding, in Lean 4, of the decision core of the repository:

* `domain/states.py` (`AppState`), `domain/events.py` (`AppEvent` variants),
* `app/state_machine.py` (`StateMachine._calculate_transition`,
  `StateMachine.transition`, `StateMachine.get_allowed_transitions`),
* `services/snippet_tracker_service.py` (`SnippetTrackerService` tick loop),
* `services/stt_service.py` (not-ready rejection of transcription requests),
* `services/doctor_service.py` (`DoctorService._perform_checks`),
* `services/recording_service.py` (`get_snippet` / `get_full`).

Python methods become pure Lean functions; the mutable `_current_state`
becomes explicit state passing; external collaborators (the whisper model,
audio chunks, the filesystem probes) become type parameters or inputs, so
that each decision procedure from the source is translated verbatim.
Definitions whose doc comment says so follow the spec's words instead, as
the comparison side of a refinement claim.
-/

namespace SttAgent

/-- `AppState` from `domain/states.py`: the closed set of session states. -/
inductive AppState where
  | INIT
  | READY
  | RECORDING
  | PAUSED
  | PROCESSING
  | DONE
  | ERROR
deriving DecidableEq, Repr

/-- `__str__` of `AppState` (`domain/states.py`): the enum's string value,
used in log messages. -/
def AppState.str : AppState → String
  | .INIT => "INIT"
  | .READY => "READY"
  | .RECORDING => "RECORDING"
  | .PAUSED => "PAUSED"
  | .PROCESSING => "PROCESSING"
  | .DONE => "DONE"
  | .ERROR => "ERROR"

/-- The event variants of `domain/events.py` as a tagged union.  Payload
fields mirror the dataclass fields (`Optional[str]` becomes `Option String`,
the float level of `AudioLevelUpdated` becomes `ℚ`).  `AudioLevelUpdated`
is declared in `domain/events.py` but handled by no branch of
`_calculate_transition`, so it exercises the unknown-event fallthrough. -/
inductive AppEvent where
  | KeyF9Pressed
  | KeyF10Pressed
  | KeyF8Pressed
  | KeyF2Pressed
  | QuitRequested
  | FullSTTDone (transcript : String) (job_id : String)
  | FullSTTFail (error_code : String) (error_hint : String) (job_id : String)
  | DoctorCompleted (success : Bool) (error_code : Option String) (error_hint : Option String)
  | AudioLevelUpdated (level : ℚ) (thread_id : ℕ)
deriving DecidableEq, Repr

/-- `type(event).__name__` — the Python class name of an event, as it
appears in log messages. -/
def AppEvent.kindName : AppEvent → String
  | .KeyF9Pressed => "KeyF9Pressed"
  | .KeyF10Pressed => "KeyF10Pressed"
  | .KeyF8Pressed => "KeyF8Pressed"
  | .KeyF2Pressed => "KeyF2Pressed"
  | .QuitRequested => "QuitRequested"
  | .FullSTTDone _ _ => "FullSTTDone"
  | .FullSTTFail _ _ _ => "FullSTTFail"
  | .DoctorCompleted _ _ _ => "DoctorCompleted"
  | .AudioLevelUpdated _ _ => "AudioLevelUpdated"

/-- The event kinds (Python event classes) as a closed enumeration, the
element type of `StateMachine.get_allowed_transitions`'s result list. -/
inductive EventKind where
  | kKeyF9Pressed
  | kKeyF10Pressed
  | kKeyF8Pressed
  | kKeyF2Pressed
  | kQuitRequested
  | kFullSTTDone
  | kFullSTTFail
  | kDoctorCompleted
  | kAudioLevelUpdated
deriving DecidableEq, Repr

/-- The kind (Python class) of an event. -/
def AppEvent.kind : AppEvent → EventKind
  | .KeyF9Pressed => .kKeyF9Pressed
  | .KeyF10Pressed => .kKeyF10Pressed
  | .KeyF8Pressed => .kKeyF8Pressed
  | .KeyF2Pressed => .kKeyF2Pressed
  | .QuitRequested => .kQuitRequested
  | .FullSTTDone _ _ => .kFullSTTDone
  | .FullSTTFail _ _ _ => .kFullSTTFail
  | .DoctorCompleted _ _ _ => .kDoctorCompleted
  | .AudioLevelUpdated _ _ => .kAudioLevelUpdated

/-- `StateMachine._calculate_transition` (`app/state_machine.py`, lines
74–153), translated branch for branch.  The Python body dispatches on
`isinstance` over the event classes in source order (F9, F10, F8, F2,
DoctorCompleted, FullSTTDone, FullSTTFail); an event matching none of the
`isinstance` checks — `QuitRequested` and `AudioLevelUpdated` among them —
reaches the final `Unknown event type` branch and yields `None`. -/
def calcTransition (from_state : AppState) (event : AppEvent) : Option AppState :=
  match event with
  | .KeyF9Pressed =>
    match from_state with
    | .READY => some .RECORDING
    | .RECORDING => some .PAUSED
    | .PAUSED => some .RECORDING
    | .DONE => some .RECORDING
    | _ => none
  | .KeyF10Pressed =>
    match from_state with
    | .RECORDING => some .PROCESSING
    | .PAUSED => some .PROCESSING
    | _ => none
  | .KeyF8Pressed =>
    match from_state with
    | .DONE => some .PROCESSING
    | _ => none
  | .KeyF2Pressed =>
    match from_state with
    | .READY => some .INIT
    | .DONE => some .INIT
    | .ERROR => some .INIT
    | _ => none
  | .DoctorCompleted success _ _ =>
    match from_state with
    | .INIT => if success then some .READY else some .ERROR
    | _ => none
  | .FullSTTDone _ _ =>
    match from_state with
    | .PROCESSING => some .DONE
    | _ => none
  | .FullSTTFail _ _ _ =>
    match from_state with
    | .PROCESSING => some .ERROR
    | _ => none
  | .QuitRequested => none
  | .AudioLevelUpdated _ _ => none

/-- `StateMachine.transition` (`app/state_machine.py`, lines 51–72).  The
method returns the new state (or `None` for a blocked transition) and
mutates `self._current_state` only in the accepted case; here the pair is
(returned value, resulting `_current_state`).  The Python body performs no
operation that can raise: it is total by construction. -/
def transition (current : AppState) (event : AppEvent) : Option AppState × AppState :=
  match calcTransition current event with
  | none => (none, current)
  | some new_state => (some new_state, new_state)

/-- `StateMachine.get_allowed_transitions` (`app/state_machine.py`, lines
155–186), translated list for list (with the event classes as
`EventKind`s). -/
def getAllowedTransitions (state : AppState) : List EventKind :=
  match state with
  | .INIT => [.kDoctorCompleted]
  | .READY => [.kKeyF9Pressed, .kKeyF2Pressed, .kQuitRequested]
  | .RECORDING => [.kKeyF9Pressed, .kKeyF10Pressed, .kQuitRequested]
  | .PAUSED => [.kKeyF9Pressed, .kKeyF10Pressed, .kQuitRequested]
  | .PROCESSING => [.kFullSTTDone, .kFullSTTFail, .kQuitRequested]
  | .DONE => [.kKeyF9Pressed, .kKeyF8Pressed, .kKeyF2Pressed, .kQuitRequested]
  | .ERROR => [.kKeyF2Pressed, .kQuitRequested]

/-- A representative event of each kind (payload fields filled with
defaults). -/
def EventKind.repEvent : EventKind → AppEvent
  | .kKeyF9Pressed => .KeyF9Pressed
  | .kKeyF10Pressed => .KeyF10Pressed
  | .kKeyF8Pressed => .KeyF8Pressed
  | .kKeyF2Pressed => .KeyF2Pressed
  | .kQuitRequested => .QuitRequested
  | .kFullSTTDone => .FullSTTDone "" ""
  | .kFullSTTFail => .FullSTTFail "" "" ""
  | .kDoctorCompleted => .DoctorCompleted true none none
  | .kAudioLevelUpdated => .AudioLevelUpdated 0 0

/-- Whether `_calculate_transition` accepts events of a given kind in a
given state (whether an entry of the code's transition table exists for the
pair).  Well-defined on kinds by `accept_depends_only_on_kind` below. -/
def acceptsKind (s : AppState) (k : EventKind) : Bool :=
  (calcTransition s k.repEvent).isSome

/-- The spec's transition table (§4.1) as a membership predicate: `true`
exactly for the `(state, event)` rows listed there.  This definition follows
the SPEC's words (not the source) — it is the comparison point for the
claims about pairs "not listed in the table".  The `any | QuitRequested`
row makes QuitRequested listed in every state. -/
def specListed (s : AppState) (e : AppEvent) : Bool :=
  match s, e with
  | .READY, .KeyF9Pressed => true
  | .RECORDING, .KeyF9Pressed => true
  | .PAUSED, .KeyF9Pressed => true
  | .DONE, .KeyF9Pressed => true
  | .RECORDING, .KeyF10Pressed => true
  | .PAUSED, .KeyF10Pressed => true
  | .DONE, .KeyF8Pressed => true
  | .READY, .KeyF2Pressed => true
  | .DONE, .KeyF2Pressed => true
  | .ERROR, .KeyF2Pressed => true
  | .INIT, .DoctorCompleted _ _ _ => true
  | .PROCESSING, .FullSTTDone _ _ => true
  | .PROCESSING, .FullSTTFail _ _ _ => true
  | _, .QuitRequested => true
  | _, _ => false

/-- The audit log entry `StateMachine.transition` appends for one attempted
transition: the `logger.warning` f-string of the blocked branch or the
`logger.info` f-string of the accepted branch (`app/state_machine.py`,
lines 61–72), built from the old state, `type(event).__name__` and the
outcome. -/
def auditEntry (current : AppState) (e : AppEvent) : String :=
  match calcTransition current e with
  | none =>
    "Invalid transition blocked: " ++ current.str ++ " --" ++ e.kindName ++ "--> (blocked)"
  | some new_state =>
    "State transition: " ++ current.str ++ " --" ++ e.kindName ++ "--> " ++ new_state.str

/-- Spec-side (§6 audit sink): an audit entry as a function ONLY of the old
state, the event kind name, and the outcome — the shape the spec requires
of every entry, to be compared with `auditEntry`. -/
def entryOfOutcome (old : AppState) (kind_name : String) (outcome : Option AppState) : String :=
  match outcome with
  | none =>
    "Invalid transition blocked: " ++ old.str ++ " --" ++ kind_name ++ "--> (blocked)"
  | some new_state =>
    "State transition: " ++ old.str ++ " --" ++ kind_name ++ "--> " ++ new_state.str

/-- The mutable fields of `SnippetTrackerService`
(`services/snippet_tracker_service.py`): the configured threshold plus the
lock-guarded flags and counter.  Times are exact rationals (the service
adds the literal `check_interval = 0.1` and compares against
`threshold_seconds`). -/
structure SnippetTracker where
  threshold_seconds : ℚ
  is_running : Bool
  is_paused : Bool
  cumulative_time : ℚ
  snippet_triggered : Bool
deriving DecidableEq, Repr

/-- `check_interval = 0.1` from `_background_worker`. -/
def checkInterval : ℚ := 1 / 10

/-- `SnippetTrackerService.start` (lines 70–94): a no-op when already
running, otherwise resets the episode state and launches the worker. -/
def SnippetTracker.start (t : SnippetTracker) : SnippetTracker :=
  if t.is_running then t
  else { t with is_running := true, is_paused := false,
                cumulative_time := 0, snippet_triggered := false }

/-- `SnippetTrackerService.pause` (lines 96–110). -/
def SnippetTracker.pause (t : SnippetTracker) : SnippetTracker :=
  if t.is_running = false then t
  else if t.is_paused then t
  else { t with is_paused := true }

/-- `SnippetTrackerService.resume` (lines 112–126). -/
def SnippetTracker.resume (t : SnippetTracker) : SnippetTracker :=
  if t.is_running = false then t
  else if t.is_paused = false then t
  else { t with is_paused := false }

/-- `SnippetTrackerService.stop` (lines 128–146): early return when not
running; otherwise clears `is_running`, joins the worker, and resets
`is_paused`, `cumulative_time` and `snippet_triggered`. -/
def SnippetTracker.stop (t : SnippetTracker) : SnippetTracker :=
  if t.is_running = false then t
  else { t with is_running := false, is_paused := false,
                cumulative_time := 0, snippet_triggered := false }

/-- One iteration of the `while` loop of `_background_worker` (lines
163–184), after the sleep: under the lock, break if no longer running;
accumulate `check_interval` only when neither paused nor already
triggered; on crossing the threshold set `snippet_triggered` and fire
`_transcribe_snippet`.  Returns the new tracker state and whether the
snippet trigger fired in this tick. -/
def SnippetTracker.workerTick (t : SnippetTracker) : SnippetTracker × Bool :=
  if t.is_running = false then (t, false)
  else if t.is_paused = false ∧ t.snippet_triggered = false then
    let c := t.cumulative_time + checkInterval
    if t.threshold_seconds ≤ c then
      ({ t with cumulative_time := c, snippet_triggered := true }, true)
    else
      ({ t with cumulative_time := c }, false)
  else (t, false)

/-- `n` consecutive worker ticks from a state: the final state and the
number of times the snippet trigger fired. -/
def runTicks (t : SnippetTracker) : ℕ → SnippetTracker × ℕ
  | 0 => (t, 0)
  | n + 1 =>
    let step := t.workerTick
    let rest := runTicks step.1 n
    (rest.1, (if step.2 then 1 else 0) + rest.2)

/-- How often the snippet trigger fires over `n` ticks from a state. -/
def fireCount (t : SnippetTracker) (n : ℕ) : ℕ := (runTicks t n).2

/-- A freshly constructed tracker with the default threshold 8.0 seconds
(`__init__`, line 41). -/
def initTracker8 : SnippetTracker :=
  { threshold_seconds := 8, is_running := false, is_paused := false,
    cumulative_time := 0, snippet_triggered := false }

/-- The tracker at the beginning of a recording episode: `start()` has just
run on a fresh threshold-8 tracker. -/
def startedAt8 : SnippetTracker := initTracker8.start

/-- The running, unpaused, untriggered threshold-8 tracker after `k`
accumulating ticks (proof-internal normal form of the worker loop's
reachable states before the trigger). -/
def midState8 (k : ℕ) : SnippetTracker :=
  { threshold_seconds := 8, is_running := true, is_paused := false,
    cumulative_time := (k : ℚ) / 10, snippet_triggered := false }

/-- `FullTranscriptionResult` (`services/stt_service.py`, lines 53–68). -/
structure FullTranscriptionResult where
  success : Bool
  transcript : Option String
  error_code : Option String
  error_hint : Option String
  job_id : String
deriving DecidableEq, Repr

/-- `SnippetTranscriptionResult` (`services/stt_service.py`, lines 37–50). -/
structure SnippetTranscriptionResult where
  success : Bool
  transcript : Option String
  quality : Option String
  error_hint : Option String
deriving DecidableEq, Repr

/-- The not-ready failure of `transcribe_full` (lines 314–327) and of the
second guard in `_transcribe_full_internal` (lines 353–359). -/
def fullNotReady (job_id : String) : FullTranscriptionResult :=
  { success := false, transcript := none, error_code := some "STT_NOT_READY",
    error_hint := some "STT nicht bereit", job_id := job_id }

/-- The invalid-audio failure of `_transcribe_full_internal` (lines
362–368). -/
def fullAudioInvalid (job_id : String) : FullTranscriptionResult :=
  { success := false, transcript := none, error_code := some "AUDIO_INVALID",
    error_hint := some "Audio-Daten ungültig", job_id := job_id }

/-- The not-ready failure of `_transcribe_snippet_internal` (lines
420–426); `SnippetTranscriptionResult` has no error_code field. -/
def snippetNotReady : SnippetTranscriptionResult :=
  { success := false, transcript := none, quality := none,
    error_hint := some "STT nicht bereit" }

/-- The invalid-audio failure of `_transcribe_snippet_internal` (lines
430–436). -/
def snippetAudioInvalid : SnippetTranscriptionResult :=
  { success := false, transcript := none, quality := none,
    error_hint := some "Audio-Daten ungültig" }

/-- `STTService.transcribe_full` (lines 284–334) composed with
`_transcribe_full_internal` (lines 336–402): the readiness state is the
pair `(_is_ready, model)`; the loaded engine is an abstract type `M` whose
`model.transcribe(...)` call — including the surrounding
`try`/`except` that converts an exception into
`(type(e).__name__, str(e))` — is the function `engine`.  The result is
the `FullTranscriptionResult` delivered to the callback, paired with
whether the engine (model) was invoked at all. -/
def transcribeFull {M α : Type} (is_ready : Bool) (model : Option M)
    (engine : M → List α → Except (String × String) String)
    (audio_data : List α) (job_id : String) : FullTranscriptionResult × Bool :=
  if is_ready = false ∨ model.isNone = true then (fullNotReady job_id, false)
  else
    match model with
    | none => (fullNotReady job_id, false)
    | some m =>
      if audio_data.length = 0 then (fullAudioInvalid job_id, false)
      else
        match engine m audio_data with
        | .ok t =>
          ({ success := true, transcript := some t, error_code := none,
             error_hint := none, job_id := job_id }, true)
        | .error (c, h) =>
          ({ success := false, transcript := none, error_code := some c,
             error_hint := some h, job_id := job_id }, true)

/-- `STTService._transcribe_snippet_internal` (lines 404–486), reached
unconditionally by `transcribe_snippet`, with the engine call and quality
computation abstracted as `engine` (ok: transcript and quality string;
error: the hint produced by the `except` boundary).  Result paired with
whether the model was invoked. -/
def transcribeSnippetInternal {M α : Type} (is_ready : Bool) (model : Option M)
    (engine : M → List α → Except String (String × String))
    (audio_data : List α) : SnippetTranscriptionResult × Bool :=
  if is_ready = false ∨ model.isNone = true then (snippetNotReady, false)
  else
    match model with
    | none => (snippetNotReady, false)
    | some m =>
      if audio_data.length = 0 then (snippetAudioInvalid, false)
      else
        match engine m audio_data with
        | .ok (t, q) =>
          ({ success := true, transcript := some t, quality := some q,
             error_hint := none }, true)
        | .error h =>
          ({ success := false, transcript := none, quality := none,
             error_hint := some h }, true)

/-- `DoctorCheckResult` (`services/doctor_service.py`, lines 28–43). -/
structure DoctorCheckResult where
  success : Bool
  error_code : Option String
  error_hint : Option String
  mic_ok : Bool
  model_ok : Bool
deriving DecidableEq, Repr

/-- The outcome of one `_perform_checks` run together with which of the
later checks the control flow reached (in the source, `_check_requirements`
and `_check_stt_model` run only after the path check passed, and
`_check_microphone` only after the model check also passed). -/
structure PerformChecksOutcome where
  result : DoctorCheckResult
  ran_requirements : Bool
  ran_model_check : Bool
  ran_mic_check : Bool
deriving DecidableEq, Repr

/-- `DoctorService._perform_checks` (lines 93–149), with the outcome of
each individual probe supplied as input: `path_check` and `model_check`
are `(success, error_hint)` pairs, `req_check` is the
`_check_requirements` pair (consulted for logging only — a missing
manifest is informational and never fails the run), `mic_check` is the
`(success, error_hint, device_identifier)` triple of `_check_microphone`.
The checks run in the source order path → requirements → model → mic and
short-circuit on the first hard failure. -/
def performChecks (path_check : Bool × Option String) (req_check : Bool × Option String)
    (model_check : Bool × Option String)
    (mic_check : Bool × Option String × Option String) : PerformChecksOutcome :=
  if path_check.1 = false then
    { result :=
        { success := false, error_code := some "PATH_NOT_WRITABLE",
          error_hint := path_check.2, mic_ok := false, model_ok := false },
      ran_requirements := false, ran_model_check := false, ran_mic_check := false }
  else if model_check.1 = false then
    { result :=
        { success := false, error_code := some "MODEL_NOT_LOADABLE",
          error_hint := model_check.2, mic_ok := true, model_ok := false },
      ran_requirements := true, ran_model_check := true, ran_mic_check := false }
  else if mic_check.1 = false then
    { result :=
        { success := false, error_code := some "MIC_NOT_AVAILABLE",
          error_hint := mic_check.2.1, mic_ok := false, model_ok := true },
      ran_requirements := true, ran_model_check := true, ran_mic_check := true }
  else
    { result :=
        { success := true, error_code := none, error_hint := none,
          mic_ok := true, model_ok := true },
      ran_requirements := true, ran_model_check := true, ran_mic_check := true }

/-- Python `int()` on a rational: truncation toward zero. -/
def pyTrunc (q : ℚ) : ℤ := if 0 ≤ q then ⌊q⌋ else ⌈q⌉

/-- Python list slicing `buf[s:]` for an arbitrary integer start index:
a negative start counts from the end (clamped at 0), a non-negative start
drops that many elements (an out-of-range start yields the empty list). -/
def pySliceFrom {α : Type} (buf : List α) (s : ℤ) : List α :=
  if s < 0 then buf.drop ((buf.length : ℤ) + s).toNat
  else buf.drop s.toNat

/-- `RecordingService.get_snippet` (`services/recording_service.py`, lines
122–131): empty when no chunks were captured; otherwise concatenate the
chunks, compute `n = int(seconds * samplerate)`, return the whole buffer
when `len(buf) <= n` and the Python slice `buf[-n:]` otherwise. -/
def get_snippet {α : Type} (chunks : List (List α)) (samplerate : ℕ) (seconds : ℚ) : List α :=
  match chunks with
  | [] => []
  | c :: cs =>
    let buf := (c :: cs).flatten
    let n := pyTrunc (seconds * samplerate)
    if (buf.length : ℤ) ≤ n then buf
    else pySliceFrom buf (-n)

/-- `RecordingService.get_full` (lines 133–138): empty when no chunks were
captured, otherwise the concatenation of all chunks. -/
def get_full {α : Type} (chunks : List (List α)) : List α :=
  match chunks with
  | [] => []
  | c :: cs => (c :: cs).flatten

/-- Spec-side: "the last `k` samples" of a buffer (the whole buffer when it
has at most `k` samples) — the value the claim asserts `get_snippet`
returns with `k = min n (buffer length)`. -/
def lastSamples {α : Type} (buf : List α) (k : ℕ) : List α :=
  buf.drop (buf.length - k)

/-! ## Theorems -/

/-- C1: every row of the spec's transition table other than the
QuitRequested row is realised by `StateMachine.transition`: it returns the
tabulated target state and updates the current state to it.
(`StartPauseResume` = `KeyF9Pressed`, `StopAndProcess` = `KeyF10Pressed`,
`Redo` = `KeyF8Pressed`, `RunPreflight` = `KeyF2Pressed`,
`PreflightCompleted` = `DoctorCompleted`.) -/
theorem c1_transition_table_rows :
    transition .READY .KeyF9Pressed = (some .RECORDING, .RECORDING) ∧
    transition .RECORDING .KeyF9Pressed = (some .PAUSED, .PAUSED) ∧
    transition .PAUSED .KeyF9Pressed = (some .RECORDING, .RECORDING) ∧
    transition .DONE .KeyF9Pressed = (some .RECORDING, .RECORDING) ∧
    transition .RECORDING .KeyF10Pressed = (some .PROCESSING, .PROCESSING) ∧
    transition .PAUSED .KeyF10Pressed = (some .PROCESSING, .PROCESSING) ∧
    transition .DONE .KeyF8Pressed = (some .PROCESSING, .PROCESSING) ∧
    transition .READY .KeyF2Pressed = (some .INIT, .INIT) ∧
    transition .DONE .KeyF2Pressed = (some .INIT, .INIT) ∧
    transition .ERROR .KeyF2Pressed = (some .INIT, .INIT) ∧
    (∀ ec eh, transition .INIT (.DoctorCompleted true ec eh) = (some .READY, .READY)) ∧
    (∀ ec eh, transition .INIT (.DoctorCompleted false ec eh) = (some .ERROR, .ERROR)) ∧
    (∀ t j, transition .PROCESSING (.FullSTTDone t j) = (some .DONE, .DONE)) ∧
    (∀ c h j, transition .PROCESSING (.FullSTTFail c h j) = (some .ERROR, .ERROR)) := by
  refine ⟨rfl, rfl, rfl, rfl, rfl, rfl, rfl, rfl, rfl, rfl, ?_, ?_, ?_, ?_⟩
  · intro ec eh; rfl
  · intro ec eh; rfl
  · intro t j; rfl
  · intro c h j; rfl

/-- C2: for every `(state, event)` pair not listed in the spec's transition
table, `StateMachine.transition` returns `None` and leaves the current
state unchanged (the Lean translation is total, mirroring the Python body,
which performs no raising operation); and events of the unrecognized kind
`AudioLevelUpdated` — which no `isinstance` branch of
`_calculate_transition` handles — are rejected in every state. -/
theorem c2_unlisted_pairs_rejected :
    (∀ (s : AppState) (e : AppEvent), specListed s e = false → transition s e = (none, s)) ∧
    (∀ (s : AppState) (l : ℚ) (t : ℕ), transition s (.AudioLevelUpdated l t) = (none, s)) := by
  constructor
  · intro s e he
    cases s <;> cases e <;> first
      | rfl
      | simp [specListed] at he
  · intro s l t
    cases s <;> rfl

/-- C2 witness: the first conjunct applied at the concrete unlisted pair
`(INIT, KeyF9Pressed)`. -/
theorem c2_unlisted_pairs_rejected_witness :
    specListed .INIT .KeyF9Pressed = false ∧
      transition .INIT .KeyF9Pressed = (none, .INIT) :=
  ⟨by decide, c2_unlisted_pairs_rejected.1 .INIT .KeyF9Pressed (by decide)⟩

/-- C3 (the code at the failing input): after `DONE --KeyF8Pressed-->
PROCESSING` (Redo, which in the running system issues a fresh job id), a
`FullSTTDone` that still carries the superseded job id `"job-1"` is NOT
discarded: `_calculate_transition` never reads `job_id`, so the event moves
the state out of `PROCESSING` to `DONE`.  This contradicts the claim (and
the spec's testable property) that such a late event must leave the state
in `PROCESSING`; spec §9 records the missing job-id fencing as a gap. -/
theorem c3_late_full_stt_done_is_applied :
    transition .DONE .KeyF8Pressed = (some .PROCESSING, .PROCESSING) ∧
    transition .PROCESSING (.FullSTTDone "late transcript" "job-1") =
      (some .DONE, .DONE) ∧
    (∀ t j, calcTransition .PROCESSING (.FullSTTDone t j) = some .DONE) :=
  ⟨rfl, rfl, fun _ _ => rfl⟩

/-- C4 counterexample: in state `READY` — a state in which the claim says
`QuitRequested` is accepted — `StateMachine.transition` rejects it
(returns `None`, state unchanged): `_calculate_transition` has no
`QuitRequested` branch, so the event falls through to the unknown-event
`return None`. -/
theorem c4_quit_rejected_in_ready :
    transition .READY .QuitRequested = (none, .READY) := rfl

/-- C4 (amended): in every state, submitting `QuitRequested` is a REJECTED
transition — `_calculate_transition` handles no `QuitRequested` branch, so
it falls into the unknown-event fallthrough, returns `None` and leaves the
current state unchanged; process exit on quit is handled outside the state
machine. -/
theorem c4_quit_always_rejected :
    ∀ s : AppState, transition s .QuitRequested = (none, s) := by
  intro s; cases s <;> rfl

/-- Whether `_calculate_transition` accepts an event does not depend on its
payload, only on its kind: the `DoctorCompleted` branch reads `success`
only to pick between two accepted targets, and no other branch reads a
payload field. -/
theorem accept_depends_only_on_kind (s : AppState) (e : AppEvent) :
    (calcTransition s e).isSome = acceptsKind s e.kind := by
  cases s <;> cases e <;>
    first
      | rfl
      | (rename_i success ec eh; cases success <;> rfl)

/-- C5 counterexample: in state `READY`, `QuitRequested` is in the list
returned by `get_allowed_transitions`, yet `_calculate_transition` rejects
events of that kind there — the two functions are NOT consistent views of
one table, refuting the claimed set equality at the concrete state
`READY`. -/
theorem c5_allowed_but_never_accepted :
    EventKind.kQuitRequested ∈ getAllowedTransitions .READY ∧
      acceptsKind .READY .kQuitRequested = false := by
  constructor
  · simp [getAllowedTransitions]
  · rfl

/-- C5 (amended): for every state, the event kinds listed by
`get_allowed_transitions` are exactly the kinds accepted by
`_calculate_transition` PLUS `QuitRequested` in every state except `INIT`:
the two functions agree on every kind other than `QuitRequested`, which
`get_allowed_transitions` lists as allowed in all non-`INIT` states while
`_calculate_transition` rejects it everywhere. -/
theorem c5_allowed_equals_accepted_plus_quit :
    ∀ (s : AppState) (k : EventKind),
      k ∈ getAllowedTransitions s ↔
        (acceptsKind s k = true ∨ (k = .kQuitRequested ∧ s ≠ .INIT)) := by
  intro s k
  cases s <;> cases k <;> simp [getAllowedTransitions, acceptsKind, EventKind.repEvent,
    calcTransition]

/-- C9 counterexample: two `DoctorCompleted` events submitted in `INIT`
that differ ONLY in payload (the `success` flag) produce different audit
entries ("... --> READY" versus "... --> ERROR"), because the payload
changes the outcome — refuting the claim that any two same-kind events
differing only in payload log identically. -/
theorem c9_doctor_success_changes_entry :
    (AppEvent.DoctorCompleted true none none).kindName
        = (AppEvent.DoctorCompleted false none none).kindName ∧
    auditEntry .INIT (.DoctorCompleted true none none) ≠
      auditEntry .INIT (.DoctorCompleted false none none) := by
  refine ⟨rfl, ?_⟩
  decide

/-- C9 (amended): every audit entry of `StateMachine.transition` is a
function only of the old state, the event kind name, and the outcome
(`entryOfOutcome`); hence two events of the same kind that also produce
the same outcome log identically — in particular any two `FullSTTDone`
(or `FullSTTFail`) events, whatever their transcript/error/job payloads —
and no payload string is ever written to the audit log.  Only through the
outcome can a payload influence the entry (the `DoctorCompleted` success
flag, see the counterexample). -/
theorem c9_entry_function_of_kind_and_outcome :
    (∀ (s : AppState) (e : AppEvent),
      auditEntry s e = entryOfOutcome s e.kindName (calcTransition s e)) ∧
    (∀ (s : AppState) (e1 e2 : AppEvent),
      e1.kindName = e2.kindName → calcTransition s e1 = calcTransition s e2 →
        auditEntry s e1 = auditEntry s e2) ∧
    (∀ (s : AppState) (t1 j1 t2 j2 : String),
      auditEntry s (.FullSTTDone t1 j1) = auditEntry s (.FullSTTDone t2 j2)) ∧
    (∀ (s : AppState) (c1 h1 j1 c2 h2 j2 : String),
      auditEntry s (.FullSTTFail c1 h1 j1) = auditEntry s (.FullSTTFail c2 h2 j2)) := by
  have hfn : ∀ (s : AppState) (e : AppEvent),
      auditEntry s e = entryOfOutcome s e.kindName (calcTransition s e) := by
    intro s e
    cases h : calcTransition s e <;> simp [auditEntry, entryOfOutcome, h]
  refine ⟨hfn, ?_, ?_, ?_⟩
  · intro s e1 e2 hk ho
    rw [hfn s e1, hfn s e2, hk, ho]
  · intro s t1 j1 t2 j2
    have ho : calcTransition s (.FullSTTDone t1 j1) = calcTransition s (.FullSTTDone t2 j2) := by
      cases s <;> rfl
    rw [hfn s (.FullSTTDone t1 j1), hfn s (.FullSTTDone t2 j2), ho]
    rfl
  · intro s c1 h1 j1 c2 h2 j2
    have ho : calcTransition s (.FullSTTFail c1 h1 j1)
        = calcTransition s (.FullSTTFail c2 h2 j2) := by
      cases s <;> rfl
    rw [hfn s (.FullSTTFail c1 h1 j1), hfn s (.FullSTTFail c2 h2 j2), ho]
    rfl

/-- C9 witness: the same-kind-same-outcome conjunct applied to two
`FullSTTDone` events with different transcripts and job ids in
`PROCESSING`. -/
theorem c9_entry_function_of_kind_and_outcome_witness :
    auditEntry .PROCESSING (.FullSTTDone "ein langes Diktat" "job-1") =
      auditEntry .PROCESSING (.FullSTTDone "etwas anderes" "job-2") :=
  c9_entry_function_of_kind_and_outcome.2.1 .PROCESSING
    (.FullSTTDone "ein langes Diktat" "job-1") (.FullSTTDone "etwas anderes" "job-2") rfl rfl

/-- A tick from a state on which `workerTick` is a firing-free no-op
changes nothing over any number of ticks. -/
theorem workerTick_noop_runTicks (t : SnippetTracker) (h : t.workerTick = (t, false)) :
    ∀ n : ℕ, runTicks t n = (t, 0) := by
  intro n
  induction n with
  | zero => rfl
  | succ n ih => simp [runTicks, h, ih]

/-- While paused, a worker tick neither accumulates nor fires. -/
theorem workerTick_paused_noop (t : SnippetTracker) (h : t.is_paused = true) :
    t.workerTick = (t, false) := by
  simp [SnippetTracker.workerTick, h]

/-- Once the snippet has been triggered, a worker tick neither accumulates
nor fires again. -/
theorem workerTick_triggered_noop (t : SnippetTracker) (h : t.snippet_triggered = true) :
    t.workerTick = (t, false) := by
  simp [SnippetTracker.workerTick, h]

/-- Unfolding one tick of the fire counter. -/
theorem fireCount_succ (t : SnippetTracker) (n : ℕ) :
    fireCount t (n + 1) = (if t.workerTick.2 then 1 else 0) + fireCount t.workerTick.1 n := by
  simp [fireCount, runTicks]

/-- A running, unpaused, untriggered tracker below the threshold ticks to
the accumulated state without firing. -/
theorem workerTick_below (t : SnippetTracker) (hr : t.is_running = true)
    (hp : t.is_paused = false) (hg : t.snippet_triggered = false)
    (hlt : ¬ t.threshold_seconds ≤ t.cumulative_time + checkInterval) :
    t.workerTick = ({ t with cumulative_time := t.cumulative_time + checkInterval }, false) := by
  simp [SnippetTracker.workerTick, hr, hp, hg, hlt]

/-- A running, unpaused, untriggered tracker crossing the threshold fires
and sets `snippet_triggered`. -/
theorem workerTick_crossing (t : SnippetTracker) (hr : t.is_running = true)
    (hp : t.is_paused = false) (hg : t.snippet_triggered = false)
    (hge : t.threshold_seconds ≤ t.cumulative_time + checkInterval) :
    t.workerTick =
      ({ t with cumulative_time := t.cumulative_time + checkInterval,
                snippet_triggered := true }, true) := by
  simp [SnippetTracker.workerTick, hr, hp, hg, hge]

/-- `start()` on a fresh threshold-8 tracker yields the `k = 0` loop normal
form. -/
theorem startedAt8_eq_midState8_zero : startedAt8 = midState8 0 := by
  simp [startedAt8, initTracker8, SnippetTracker.start, midState8]

/-- From the loop normal form with `k < 80` accumulated ticks, the next `n`
ticks fire exactly once if they reach the 80th accumulating tick (where
the cumulative time first reaches `8.0`), and never otherwise. -/
theorem fireCount_midState8 (n : ℕ) : ∀ k : ℕ, k < 80 →
    fireCount (midState8 k) n = if n < 80 - k then 0 else 1 := by
  induction n with
  | zero =>
    intro k hk
    have h0 : 0 < 80 - k := by omega
    simp [fireCount, runTicks, h0]
  | succ n ih =>
    intro k hk
    by_cases h79 : k = 79
    · subst h79
      have hge : (midState8 79).threshold_seconds ≤
          (midState8 79).cumulative_time + checkInterval := by
        simp only [midState8, checkInterval]
        norm_num
      have ht := workerTick_crossing (midState8 79) rfl rfl rfl hge
      have hz : fireCount ({ midState8 79 with
          cumulative_time := (midState8 79).cumulative_time + checkInterval,
          snippet_triggered := true }) n = 0 := by
        rw [fireCount, workerTick_noop_runTicks _ (workerTick_triggered_noop _ rfl) n]
      rw [fireCount_succ, ht, if_neg (by omega : ¬ (n + 1 < 80 - 79))]
      simp [hz]
    · have harith : (midState8 k).cumulative_time + checkInterval = ((k + 1 : ℕ) : ℚ) / 10 := by
        simp only [midState8, checkInterval]
        push_cast
        ring
      have hlt : ¬ (midState8 k).threshold_seconds ≤
          (midState8 k).cumulative_time + checkInterval := by
        rw [harith]
        show ¬ (8 : ℚ) ≤ ((k + 1 : ℕ) : ℚ) / 10
        rw [le_div_iff₀ (by norm_num : (0 : ℚ) < 10)]
        push_cast
        have hk1 : ((k : ℚ) + 1) < 80 := by exact_mod_cast (by omega : k + 1 < 80)
        linarith
      have ht : (midState8 k).workerTick = (midState8 (k + 1), false) := by
        rw [workerTick_below (midState8 k) rfl rfl rfl hlt, harith]
        rfl
      rw [fireCount_succ, ht]
      simp only
      rw [ih (k + 1) (by omega)]
      by_cases hn : n < 80 - (k + 1)
      · rw [if_pos hn, if_pos (by omega : n + 1 < 80 - k)]
        simp
      · rw [if_neg hn, if_neg (by omega : ¬ (n + 1 < 80 - k))]
        simp

/-- C6: for a `SnippetTrackerService` with the default threshold 8.0 and a
worker adding `check_interval = 0.1` per tick while running, unpaused and
untriggered: (1) from a freshly started episode the snippet trigger fires
exactly once, at the 80th tick — the first tick at which the cumulative
time reaches the threshold (`80 × 0.1 ≥ 8.0`) — and never again; (2) while
paused, ticks change nothing and fire nothing, so pausing before the
threshold and staying paused yields zero fires for the remainder of the
episode; (3) once triggered, later ticks never fire again until
`stop`/`start`; (4) `stop()` on a running tracker resets
`cumulative_time`, the paused flag and the triggered flag. -/
theorem c6_snippet_fires_exactly_once :
    (∀ n : ℕ, fireCount startedAt8 n = if n < 80 then 0 else 1) ∧
    (∀ (t : SnippetTracker) (n : ℕ), t.is_paused = true → runTicks t n = (t, 0)) ∧
    (∀ (t : SnippetTracker) (n : ℕ), t.snippet_triggered = true → runTicks t n = (t, 0)) ∧
    (∀ t : SnippetTracker, t.is_running = true →
      t.stop.cumulative_time = 0 ∧ t.stop.is_paused = false ∧
        t.stop.snippet_triggered = false) := by
  refine ⟨?_, ?_, ?_, ?_⟩
  · intro n
    rw [startedAt8_eq_midState8_zero]
    have h := fireCount_midState8 n 0 (by omega)
    simpa using h
  · intro t n h
    exact workerTick_noop_runTicks t (workerTick_paused_noop t h) n
  · intro t n h
    exact workerTick_noop_runTicks t (workerTick_triggered_noop t h) n
  · intro t h
    simp [SnippetTracker.stop, h]

/-- C6 witness: 79 ticks fire nothing, 80 ticks fire once, 500 ticks still
only once; a paused tracker below threshold fires nothing in 100 ticks and
is unchanged; `stop` on the started tracker resets the episode fields. -/
theorem c6_snippet_fires_exactly_once_witness :
    fireCount startedAt8 79 = 0 ∧ fireCount startedAt8 80 = 1 ∧
    fireCount startedAt8 500 = 1 ∧
    runTicks { threshold_seconds := 8, is_running := true, is_paused := true,
               cumulative_time := 79 / 10, snippet_triggered := false } 100 =
      ({ threshold_seconds := 8, is_running := true, is_paused := true,
         cumulative_time := 79 / 10, snippet_triggered := false }, 0) ∧
    (startedAt8.stop.cumulative_time = 0 ∧ startedAt8.stop.is_paused = false ∧
      startedAt8.stop.snippet_triggered = false) := by
  have h := c6_snippet_fires_exactly_once
  refine ⟨?_, ?_, ?_, h.2.1 _ 100 rfl, h.2.2.2 startedAt8 (by decide)⟩
  · rw [h.1 79]; norm_num
  · rw [h.1 80]; norm_num
  · rw [h.1 500]; norm_num

/-- C7: a transcription request issued while the engine is not ready
(`is_ready()` false or the model still `None`) is rejected with the
not-ready failure result delivered to the callback — for `transcribe_full`
with `error_code = "STT_NOT_READY"` and hint "STT nicht bereit", for the
snippet path with the same hint — and the model is not invoked (second
component `false`); the request is decided immediately, not queued until
the model loads. -/
theorem c7_not_ready_rejected {M α : Type} (is_ready : Bool) (model : Option M)
    (engineF : M → List α → Except (String × String) String)
    (engineS : M → List α → Except String (String × String))
    (audio_data : List α) (job_id : String)
    (h : is_ready = false ∨ model = none) :
    transcribeFull is_ready model engineF audio_data job_id = (fullNotReady job_id, false) ∧
    transcribeSnippetInternal is_ready model engineS audio_data = (snippetNotReady, false) := by
  have hb : is_ready = false ∨ model.isNone = true := by
    rcases h with h | h
    · exact Or.inl h
    · exact Or.inr (by simp [h])
  constructor
  · simp only [transcribeFull]
    rw [if_pos hb]
  · simp only [transcribeSnippetInternal]
    rw [if_pos hb]

/-- C7 witness: the not-ready service (no model loaded) rejects a full and
a snippet request at concrete inputs. -/
theorem c7_not_ready_rejected_witness :
    transcribeFull false (none : Option Unit) (fun _ _ => Except.ok "") ([] : List Unit)
        "job-1" = (fullNotReady "job-1", false) ∧
    transcribeSnippetInternal false (none : Option Unit) (fun _ _ => Except.ok ("", ""))
        ([] : List Unit) = (snippetNotReady, false) :=
  c7_not_ready_rejected false none (fun _ _ => Except.ok "") (fun _ _ => Except.ok ("", ""))
    [] "job-1" (Or.inl rfl)

/-- C8: `_perform_checks` with the four probe outcomes as inputs:
(1) aggregated success holds iff the path, model and microphone checks all
pass; (2) a failed path check short-circuits with `PATH_NOT_WRITABLE` and
its hint, reaching neither the model nor the mic check; (3) a failed model
check (after a passing path check) yields `MODEL_NOT_LOADABLE` without
reaching the mic check; (4) a failed mic check yields `MIC_NOT_AVAILABLE`
with its hint; (5) when all three pass the aggregated result is success
with no error code; (6) the requirements-manifest outcome never influences
the run at all — a missing manifest alone never causes failure. -/
theorem c8_doctor_checks (path_check : Bool × Option String) (req_check : Bool × Option String)
    (model_check : Bool × Option String)
    (mic_check : Bool × Option String × Option String) :
    ((performChecks path_check req_check model_check mic_check).result.success
        = (path_check.1 && model_check.1 && mic_check.1)) ∧
    (path_check.1 = false →
      performChecks path_check req_check model_check mic_check =
        { result :=
            { success := false, error_code := some "PATH_NOT_WRITABLE",
              error_hint := path_check.2, mic_ok := false, model_ok := false },
          ran_requirements := false, ran_model_check := false, ran_mic_check := false }) ∧
    (path_check.1 = true → model_check.1 = false →
      performChecks path_check req_check model_check mic_check =
        { result :=
            { success := false, error_code := some "MODEL_NOT_LOADABLE",
              error_hint := model_check.2, mic_ok := true, model_ok := false },
          ran_requirements := true, ran_model_check := true, ran_mic_check := false }) ∧
    (path_check.1 = true → model_check.1 = true → mic_check.1 = false →
      performChecks path_check req_check model_check mic_check =
        { result :=
            { success := false, error_code := some "MIC_NOT_AVAILABLE",
              error_hint := mic_check.2.1, mic_ok := false, model_ok := true },
          ran_requirements := true, ran_model_check := true, ran_mic_check := true }) ∧
    (path_check.1 = true → model_check.1 = true → mic_check.1 = true →
      performChecks path_check req_check model_check mic_check =
        { result :=
            { success := true, error_code := none, error_hint := none,
              mic_ok := true, model_ok := true },
          ran_requirements := true, ran_model_check := true, ran_mic_check := true }) ∧
    (∀ other_req : Bool × Option String,
      performChecks path_check req_check model_check mic_check =
        performChecks path_check other_req model_check mic_check) := by
  obtain ⟨pb, ph⟩ := path_check
  obtain ⟨mb, mh⟩ := model_check
  obtain ⟨ib, ihint, idev⟩ := mic_check
  cases pb <;> cases mb <;> cases ib <;> simp [performChecks]

/-- C8 witness: a run whose manifest check fails (informational) and whose
model check fails hard is decided by the model check, with the mic probe
never reached. -/
theorem c8_doctor_checks_witness :
    performChecks (true, none) (false, some "requirements.lock.txt not found (informational)")
        (false, some "faster-whisper not installed") (true, none, some "default") =
      { result :=
          { success := false, error_code := some "MODEL_NOT_LOADABLE",
            error_hint := some "faster-whisper not installed", mic_ok := true,
            model_ok := false },
        ran_requirements := true, ran_model_check := true, ran_mic_check := false } :=
  (c8_doctor_checks (true, none) (false, some "requirements.lock.txt not found (informational)")
      (false, some "faster-whisper not installed") (true, none, some "default")).2.2.1 rfl rfl

/-- Python `int()` of a non-negative rational is non-negative. -/
theorem pyTrunc_nonneg (q : ℚ) (h : 0 ≤ q) : 0 ≤ pyTrunc q := by
  unfold pyTrunc
  rw [if_pos h]
  exact Int.floor_nonneg.mpr h

/-- C10 counterexample: with one captured chunk `[1]` and `seconds = 0`
(so `n = int(0 * 16000) = 0`), `get_snippet` returns the WHOLE buffer
(Python `buf[-0:]` is `buf[0:]`), while the claim's "last
`min(n, len)` = last 0 samples" is the empty list. -/
theorem c10_zero_seconds_whole_buffer :
    get_snippet [[(1 : ℤ)]] 16000 0 = [1] ∧
    lastSamples (List.flatten [[(1 : ℤ)]])
      (min (pyTrunc ((0 : ℚ) * ((16000 : ℕ) : ℚ))).toNat
        (List.flatten [[(1 : ℤ)]]).length) = [] := by
  have h0 : pyTrunc (0 : ℚ) = 0 := by
    unfold pyTrunc
    rw [if_pos le_rfl, Int.floor_zero]
  constructor
  · simp [get_snippet, h0, pySliceFrom]
  · simp [lastSamples, h0]

/-- C10 (amended): for every buffer state and `seconds ≥ 0` with
`n = int(seconds * samplerate)`: whenever `n ≥ 1` (or the buffer is
empty), `get_snippet` returns exactly the last `min(n, buffer length)`
samples of the concatenation of all captured chunks — the whole buffer
when it is shorter than requested; when `n = 0` and the buffer is
non-empty it returns the WHOLE buffer (Python `buf[-0:]`), not the empty
suffix; an empty buffer always yields the empty list; and `get_full`
returns the full concatenated buffer.  The functions are pure reads: the
stored chunks are not modified. -/
theorem c10_snippet_last_samples {α : Type} (chunks : List (List α)) (samplerate : ℕ)
    (seconds : ℚ) (hs : 0 ≤ seconds) :
    ((1 ≤ (pyTrunc (seconds * samplerate)).toNat ∨ chunks.flatten = []) →
      get_snippet chunks samplerate seconds =
        lastSamples chunks.flatten
          (min (pyTrunc (seconds * samplerate)).toNat chunks.flatten.length)) ∧
    ((pyTrunc (seconds * samplerate)).toNat = 0 → chunks.flatten ≠ [] →
      get_snippet chunks samplerate seconds = chunks.flatten) ∧
    get_full chunks = chunks.flatten := by
  have hn0 : 0 ≤ pyTrunc (seconds * samplerate) :=
    pyTrunc_nonneg _ (mul_nonneg hs (Nat.cast_nonneg _))
  refine ⟨?_, ?_, ?_⟩
  · intro h1
    cases chunks with
    | nil => simp [get_snippet, lastSamples]
    | cons c cs =>
      simp only [get_snippet]
      by_cases hlen : (((c :: cs).flatten.length : ℤ) ≤ pyTrunc (seconds * samplerate))
      · rw [if_pos hlen]
        have hle : (c :: cs).flatten.length ≤ (pyTrunc (seconds * samplerate)).toNat := by
          omega
        rw [min_eq_right hle]
        simp [lastSamples]
      · rw [if_neg hlen]
        rcases h1 with h1 | h1
        · simp only [pySliceFrom]
          rw [if_pos (by omega : -pyTrunc (seconds * samplerate) < 0)]
          have hle2 : (pyTrunc (seconds * samplerate)).toNat ≤ (c :: cs).flatten.length := by
            omega
          rw [min_eq_left hle2]
          unfold lastSamples
          congr 1
          omega
        · exfalso
          rw [h1] at hlen
          simp at hlen
          omega
  · intro hzero hne
    cases chunks with
    | nil => exact absurd rfl hne
    | cons c cs =>
      simp only [get_snippet]
      have hnz : pyTrunc (seconds * samplerate) = 0 := by omega
      rw [hnz]
      have hpos : 0 < (c :: cs).flatten.length := List.length_pos.mpr hne
      rw [if_neg (by omega : ¬ (((c :: cs).flatten.length : ℤ) ≤ 0))]
      simp [pySliceFrom]
  · cases chunks with
    | nil => rfl
    | cons c cs => rfl

/-- C10 witness: with 16000 samples per second requested over a 3-sample
buffer, `get_snippet` returns the whole buffer (the last `min(16000, 3)`
samples) and `get_full` the full concatenation. -/
theorem c10_snippet_last_samples_witness :
    get_snippet [[(1 : ℤ), 2], [3]] 16000 1 =
      lastSamples (List.flatten [[(1 : ℤ), 2], [3]])
        (min (pyTrunc ((1 : ℚ) * ((16000 : ℕ) : ℚ))).toNat
          (List.flatten [[(1 : ℤ), 2], [3]]).length) ∧
    get_full [[(1 : ℤ), 2], [3]] = List.flatten [[(1 : ℤ), 2], [3]] := by
  have h := c10_snippet_last_samples [[(1 : ℤ), 2], [3]] 16000 1 (by norm_num)
  have h16 : pyTrunc ((1 : ℚ) * ((16000 : ℕ) : ℚ)) = 16000 := by
    unfold pyTrunc
    rw [one_mul, if_pos (by positivity), Int.floor_natCast]
    decide
  exact ⟨h.1 (Or.inl (by rw [h16]; decide)), h.2.2⟩

end SttAgent
